import Mathlib

/-!
Verification of the "Diet and Brain Health Explorer" (alzdc.py).

The program has two independent pipelines:
* a questionnaire scorer: eight fixed questions, each with an option list and
  a sparse mapping from option labels to signed integer deltas; the `ask`
  step accumulates a total score and healthy/unhealthy counts, and a percent
  healthy value is derived at the end;
* a dataset analyzer: loads a CSV into rows, derives a per-row diet score,
  and computes a Pearson correlation matrix and an ordinary least squares
  regression of cognitive score on diet score.

Numeric CSV cells and the statistics are modelled over the rationals, and the
correlation coefficients (which divide by square roots of variances) over the
reals.
-/

/- ------------------------------------------------------------------ -/
/- Questionnaire scorer                                               -/
/- ------------------------------------------------------------------ -/

/-- The mutable quiz accumulators of the script: `score`, `healthy`,
`unhealthy`, all initialised to zero before the questions run. -/
structure QuizState where
  score : Int
  healthy : Nat
  unhealthy : Nat
deriving DecidableEq, Repr

/-- Python `mapping.get(ans, 0)`: look up `ans` among the keys, defaulting to
zero when the key is absent. -/
def mapping_get (mapping : List (String × Int)) (ans : String) : Int :=
  match mapping.find? (fun p => p.1 == ans) with
  | some p => p.2
  | none => 0

/-- One quiz question: prompt, ordered option labels, and the sparse mapping
from option labels to score deltas. -/
structure Question where
  prompt : String
  options : List String
  mapping : List (String × Int)

/-- The body of `ask`: `delta = mapping.get(ans, 0); score += delta;
if delta > 0: healthy += 1 elif delta < 0: unhealthy += 1`. -/
def ask (st : QuizState) (mapping : List (String × Int)) (ans : String) :
    QuizState :=
  let delta := mapping_get mapping ans
  { score := st.score + delta
    healthy := if delta > 0 then st.healthy + 1 else st.healthy
    unhealthy := if delta < 0 then st.unhealthy + 1 else st.unhealthy }

/-- The eight question definitions, exactly as in the script. -/
def questions : List Question :=
  [ ⟨"Servings of leafy greens per week", ["None", "1–3", "4–6", "7+"],
      [("1–3", 1), ("4–6", 2), ("7+", 3)]⟩,
    ⟨"Servings of berries per week", ["None", "1–2", "3–4", "5+"],
      [("1–2", 1), ("3–4", 2), ("5+", 3)]⟩,
    ⟨"Servings of fish per week", ["None", "1–2", "3–4", "5+"],
      [("1–2", 1), ("3–4", 2), ("5+", 3)]⟩,
    ⟨"Servings of nuts per week", ["None", "1–2", "3–4", "5+"],
      [("1–2", 1), ("3–4", 2), ("5+", 3)]⟩,
    ⟨"Use of olive oil daily", ["Never", "Sometimes", "Daily"],
      [("Sometimes", 1), ("Daily", 2)]⟩,
    ⟨"Servings of whole grains per day", ["<1", "1–2", "3–4", "5+"],
      [("1–2", 1), ("3–4", 2), ("5+", 3)]⟩,
    ⟨"Servings of red meat per week", ["5+", "3–4", "1–2", "None"],
      [("3–4", -1), ("5+", -2)]⟩,
    ⟨"Sugary snacks or soda per week", ["Daily", "Several", "Weekly", "Rarely"],
      [("Several", -1), ("Daily", -2)]⟩ ]

/-- Running the quiz loop: starting from zeroed accumulators, each question is
asked in order with the user's selected label for it. -/
def runQuiz (answers : List String) : QuizState :=
  (questions.zip answers).foldl (fun st qa => ask st qa.1.mapping qa.2)
    ⟨0, 0, 0⟩

/-- Python `int(healthy/total*100) if total>0 else 0` with
`total = healthy + unhealthy`.  The script truncates the float
`healthy/total*100`; for every reachable pair (`healthy ≤ total ≤ 8`, the
quiz has eight questions) the double-precision result truncates to the floor
of the exact rational, so the Nat floor division below is exact. -/
def percent_healthy (healthy unhealthy : Nat) : Nat :=
  let total := healthy + unhealthy
  if total > 0 then healthy * 100 / total else 0

/-- The four quiz values displayed to the user: total score, healthy count,
unhealthy count, percent healthy. -/
def quizOutput (answers : List String) : Int × Nat × Nat × Nat :=
  let st := runQuiz answers
  (st.score, st.healthy, st.unhealthy,
    percent_healthy st.healthy st.unhealthy)

/-- The answer set of the spec's first concrete case. -/
def bestAnswers : List String :=
  ["7+", "5+", "5+", "5+", "Daily", "5+", "None", "Rarely"]

/- ------------------------------------------------------------------ -/
/- Theorems for C1 and C4                                             -/
/- ------------------------------------------------------------------ -/

/-- C1: if the selected label is not a key of the question's delta mapping,
`ask` contributes delta 0: the score, healthy count and unhealthy count are
all unchanged, and no error is possible (`ask` is total). -/
theorem unknown_label_contributes_zero (st : QuizState)
    (mapping : List (String × Int)) (ans : String)
    (h : ∀ p ∈ mapping, p.1 ≠ ans) : ask st mapping ans = st := by
  have hfind : mapping.find? (fun p => p.1 == ans) = none := by
    rw [List.find?_eq_none]
    intro p hp
    simpa using h p hp
  simp [ask, mapping_get, hfind]

/-- Witness for C1: the label "Never" is not a key of the leafy greens
mapping, and asking with it leaves the zero state unchanged. -/
theorem unknown_label_contributes_zero_witness :
    (∀ p ∈ [("1–3", (1 : Int)), ("4–6", 2), ("7+", 3)], p.1 ≠ "Never") ∧
      ask ⟨0, 0, 0⟩ [("1–3", 1), ("4–6", 2), ("7+", 3)] "Never" = ⟨0, 0, 0⟩ :=
  ⟨by decide, unknown_label_contributes_zero _ _ _ (by decide)⟩

/-- Folding `ask` over questions whose selected labels all have delta zero
leaves the accumulator state unchanged. -/
theorem foldl_ask_zero (l : List (Question × String)) (st : QuizState)
    (h : ∀ qa ∈ l, mapping_get qa.1.mapping qa.2 = 0) :
    l.foldl (fun st qa => ask st qa.1.mapping qa.2) st = st := by
  induction l generalizing st with
  | nil => rfl
  | cons a l ih =>
      have ha : mapping_get a.1.mapping a.2 = 0 := h a (by simp)
      have hstep : ask st a.1.mapping a.2 = st := by
        simp [ask, ha]
      simp only [List.foldl_cons, hstep]
      exact ih st (fun qa hqa => h qa (by simp [hqa]))

/-- Folding `ask` over questions whose selected labels all have positive
delta increments the healthy count once per question and never touches the
unhealthy count. -/
theorem foldl_ask_pos (l : List (Question × String)) (st : QuizState)
    (h : ∀ qa ∈ l, 0 < mapping_get qa.1.mapping qa.2) :
    (l.foldl (fun st qa => ask st qa.1.mapping qa.2) st).healthy
        = st.healthy + l.length ∧
      (l.foldl (fun st qa => ask st qa.1.mapping qa.2) st).unhealthy
        = st.unhealthy := by
  induction l generalizing st with
  | nil => simp
  | cons a l ih =>
      have ha : 0 < mapping_get a.1.mapping a.2 := h a (by simp)
      have ih' := ih (ask st a.1.mapping a.2)
        (fun qa hqa => h qa (by simp [hqa]))
      simp only [List.foldl_cons] at *
      rw [ih'.1, ih'.2]
      have h1 : (ask st a.1.mapping a.2).healthy = st.healthy + 1 := by
        simp [ask, ha]
      have h2 : (ask st a.1.mapping a.2).unhealthy = st.unhealthy := by
        have : ¬ mapping_get a.1.mapping a.2 < 0 := by omega
        simp [ask, this]
      rw [h1, h2]
      constructor
      · simp [List.length_cons]; omega
      · rfl

/-- Folding `ask` over questions whose selected labels all have nonnegative
delta never touches the unhealthy count. -/
theorem foldl_ask_nonneg (l : List (Question × String)) (st : QuizState)
    (h : ∀ qa ∈ l, 0 ≤ mapping_get qa.1.mapping qa.2) :
    (l.foldl (fun st qa => ask st qa.1.mapping qa.2) st).unhealthy
        = st.unhealthy := by
  induction l generalizing st with
  | nil => rfl
  | cons a l ih =>
      have ha : ¬ mapping_get a.1.mapping a.2 < 0 := by
        have := h a (by simp); omega
      have h2 : (ask st a.1.mapping a.2).unhealthy = st.unhealthy := by
        simp [ask, ha]
      simp only [List.foldl_cons]
      rw [ih (ask st a.1.mapping a.2) (fun qa hqa => h qa (by simp [hqa])), h2]

/-- The healthy count never decreases along the quiz fold. -/
theorem foldl_ask_healthy_le (l : List (Question × String)) (st : QuizState) :
    st.healthy ≤ (l.foldl (fun st qa => ask st qa.1.mapping qa.2) st).healthy := by
  induction l generalizing st with
  | nil => exact le_refl _
  | cons a l ih =>
      refine le_trans ?_ (ih (ask st a.1.mapping a.2))
      by_cases hd : 0 < mapping_get a.1.mapping a.2 <;> simp [ask, hd]

/-- If some processed question has a positive delta, the healthy count ends
up positive. -/
theorem foldl_ask_healthy_pos (l : List (Question × String)) (st : QuizState)
    (h : ∃ qa ∈ l, 0 < mapping_get qa.1.mapping qa.2) :
    0 < (l.foldl (fun st qa => ask st qa.1.mapping qa.2) st).healthy := by
  induction l generalizing st with
  | nil => simp at h
  | cons a l ih =>
      obtain ⟨qa, hmem, hpos⟩ := h
      rcases List.mem_cons.1 hmem with heq | hmem'
      · subst heq
        have h1 : (ask st qa.1.mapping qa.2).healthy = st.healthy + 1 := by
          simp [ask, hpos]
        have := foldl_ask_healthy_le l (ask st qa.1.mapping qa.2)
        simp only [List.foldl_cons]
        omega
      · simp only [List.foldl_cons]
        exact ih _ ⟨qa, hmem', hpos⟩

/-- C4: on the concrete answer set (7+, 5+, 5+, 5+, Daily, 5+, None, Rarely)
the per-question delta contributions are 3,3,3,3,2,3,0,0, the total score is
17, the healthy count 6, the unhealthy count 0, and percent healthy 100. -/
theorem best_answers_concrete_case :
    (questions.zip bestAnswers).map (fun qa => mapping_get qa.1.mapping qa.2)
        = [3, 3, 3, 3, 2, 3, 0, 0] ∧
      quizOutput bestAnswers = (17, 6, 0, 100) := by
  constructor <;> rfl

/-- C5: when every question is answered with its zero-delta option, the total
score is 0 and percent healthy is 0 (the zero denominator is guarded to 0,
not an error). -/
theorem all_zero_options_score_zero (answers : List String)
    (hlen : answers.length = questions.length)
    (h : ∀ qa ∈ questions.zip answers,
      qa.2 ∈ qa.1.options ∧ mapping_get qa.1.mapping qa.2 = 0) :
    (runQuiz answers).score = 0 ∧
      percent_healthy (runQuiz answers).healthy (runQuiz answers).unhealthy
        = 0 := by
  have hz : runQuiz answers = ⟨0, 0, 0⟩ :=
    foldl_ask_zero _ _ (fun qa hqa => (h qa hqa).2)
  rw [hz]
  exact ⟨rfl, rfl⟩

/-- Witness for C5: each question answered with a zero-delta option from its
option list gives total 0 and percent healthy 0. -/
theorem all_zero_options_score_zero_witness :
    (["None", "None", "None", "None", "Never", "<1", "None", "Rarely"]
          : List String).length = questions.length ∧
      (∀ qa ∈ questions.zip
          ["None", "None", "None", "None", "Never", "<1", "None", "Rarely"],
        qa.2 ∈ qa.1.options ∧ mapping_get qa.1.mapping qa.2 = 0) ∧
      (runQuiz
          ["None", "None", "None", "None", "Never", "<1", "None", "Rarely"]).score
          = 0 ∧
      percent_healthy
          (runQuiz
            ["None", "None", "None", "None", "Never", "<1", "None", "Rarely"]).healthy
          (runQuiz
            ["None", "None", "None", "None", "Never", "<1", "None", "Rarely"]).unhealthy
          = 0 := by
  refine ⟨by decide, by decide, ?_⟩
  exact all_zero_options_score_zero _ (by decide) (by decide)

/-- Counterexample for C6: the red meat question (index 6) and the sugary
snacks question (index 7) have only strictly negative deltas in their
mappings, so no label at all — in particular no option — has a strictly
positive delta there: the precondition "every selected label has a strictly
positive delta for all 8 questions" is unsatisfiable on this question set. -/
theorem no_positive_delta_for_red_meat_or_sweets :
    ((questions.get ⟨6, by decide⟩).mapping ++
        (questions.get ⟨7, by decide⟩).mapping).all (fun p => p.2 < 0)
      = true := by decide

/-- C6 (amended): for every answer set in which no selected label has a
negative delta and at least one selected label has a strictly positive
delta, the quiz yields percent healthy 100 and unhealthy count 0. -/
theorem no_negative_some_positive_percent_100 (answers : List String)
    (hnn : ∀ qa ∈ questions.zip answers, 0 ≤ mapping_get qa.1.mapping qa.2)
    (hpos : ∃ qa ∈ questions.zip answers, 0 < mapping_get qa.1.mapping qa.2) :
    percent_healthy (runQuiz answers).healthy (runQuiz answers).unhealthy
        = 100 ∧
      (runQuiz answers).unhealthy = 0 := by
  have hu : (runQuiz answers).unhealthy = 0 := foldl_ask_nonneg _ _ hnn
  have hh : 0 < (runQuiz answers).healthy := foldl_ask_healthy_pos _ _ hpos
  refine ⟨?_, hu⟩
  rw [hu]
  simp [percent_healthy, hh, Nat.mul_div_cancel_left 100 hh]

/-- Witness for C6 (amended): the all-best answer set has no negative deltas
and a positive one, so percent healthy is 100 and unhealthy is 0. -/
theorem no_negative_some_positive_percent_100_witness :
    (∀ qa ∈ questions.zip bestAnswers, 0 ≤ mapping_get qa.1.mapping qa.2) ∧
      (∃ qa ∈ questions.zip bestAnswers,
        0 < mapping_get qa.1.mapping qa.2) ∧
      percent_healthy (runQuiz bestAnswers).healthy
          (runQuiz bestAnswers).unhealthy = 100 ∧
      (runQuiz bestAnswers).unhealthy = 0 := by
  refine ⟨by decide, by decide, ?_⟩
  exact no_negative_some_positive_percent_100 _ (by decide) (by decide)

/-- C10: for every answer set, including ones with labels outside the
defined options, percent healthy lies between 0 and 100. -/
theorem percent_healthy_bounds (answers : List String) :
    0 ≤ percent_healthy (runQuiz answers).healthy
          (runQuiz answers).unhealthy ∧
      percent_healthy (runQuiz answers).healthy
          (runQuiz answers).unhealthy ≤ 100 := by
  refine ⟨Nat.zero_le _, ?_⟩
  unfold percent_healthy
  by_cases hpos : 0 < (runQuiz answers).healthy + (runQuiz answers).unhealthy
  · rw [if_pos hpos]
    calc (runQuiz answers).healthy * 100 /
          ((runQuiz answers).healthy + (runQuiz answers).unhealthy)
        ≤ ((runQuiz answers).healthy + (runQuiz answers).unhealthy) * 100 /
          ((runQuiz answers).healthy + (runQuiz answers).unhealthy) := by
          apply Nat.div_le_div_right
          exact Nat.mul_le_mul_right 100 (Nat.le_add_right _ _)
      _ = 100 := Nat.mul_div_cancel_left 100 hpos
  · rw [if_neg hpos]
    omega

/- ------------------------------------------------------------------ -/
/- Dataset analyzer                                                   -/
/- ------------------------------------------------------------------ -/

/-- One row of brain_diet_data.csv, before the diet score column is added.
The CSV's numeric cells are modelled as rationals. -/
structure RawRow where
  leafy_greens : ℚ
  berries : ℚ
  fish : ℚ
  nuts : ℚ
  olive_oil : ℚ
  red_meat : ℚ
  sweets : ℚ
  fast_food : ℚ
  cognitive_score : ℚ
  microbiome_diversity : ℚ
  amyloid_beta : ℚ
  tau_protein : ℚ
deriving DecidableEq, Repr

/-- A row after `load_and_prepare` added the derived diet_score column. -/
structure PreparedRow where
  leafy_greens : ℚ
  berries : ℚ
  fish : ℚ
  nuts : ℚ
  olive_oil : ℚ
  red_meat : ℚ
  sweets : ℚ
  fast_food : ℚ
  cognitive_score : ℚ
  microbiome_diversity : ℚ
  amyloid_beta : ℚ
  tau_protein : ℚ
  diet_score : ℚ
deriving DecidableEq, Repr

/-- The per-row body of `load_and_prepare`: copy the row and attach
`diet_score = leafy_greens + berries + fish + nuts + olive_oil
- red_meat - sweets - fast_food`. -/
def prepareRow (r : RawRow) : PreparedRow :=
  { leafy_greens := r.leafy_greens
    berries := r.berries
    fish := r.fish
    nuts := r.nuts
    olive_oil := r.olive_oil
    red_meat := r.red_meat
    sweets := r.sweets
    fast_food := r.fast_food
    cognitive_score := r.cognitive_score
    microbiome_diversity := r.microbiome_diversity
    amyloid_beta := r.amyloid_beta
    tau_protein := r.tau_protein
    diet_score := r.leafy_greens + r.berries + r.fish + r.nuts + r.olive_oil
      - r.red_meat - r.sweets - r.fast_food }

/-- The whole of `load_and_prepare` on an already-read CSV: the diet score
column is recomputed for every row. -/
def load_and_prepare (rows : List RawRow) : List PreparedRow :=
  rows.map prepareRow

/-- Column extraction `df[v]`. -/
def col (df : List PreparedRow) (v : PreparedRow → ℚ) : List ℚ :=
  df.map v

/-- Arithmetic mean of a column (denominator is the list length). -/
def mean (xs : List ℚ) : ℚ :=
  xs.sum / xs.length

/-- Sum of products of deviations from the means: the common numerator
kernel of the Pearson correlation, pandas `corr`, and scipy `linregress`
(the normalisation by the number of rows cancels everywhere it is used). -/
def scov (xs ys : List ℚ) : ℚ :=
  ((xs.zip ys).map (fun p => (p.1 - mean xs) * (p.2 - mean ys))).sum

/-- Pearson correlation coefficient of two columns, as computed by pandas
`DataFrame.corr()`: deviation product sum over the product of the square
roots of the deviation square sums.  Floating point is modelled by the
reals. -/
noncomputable def pearson (xs ys : List ℚ) : ℝ :=
  (scov xs ys : ℝ) /
    (Real.sqrt (scov xs xs) * Real.sqrt (scov ys ys))

/-- The five variables of `vars_corr`, in order. -/
def vars_corr : Fin 5 → (PreparedRow → ℚ)
  | 0 => PreparedRow.diet_score
  | 1 => PreparedRow.cognitive_score
  | 2 => PreparedRow.microbiome_diversity
  | 3 => PreparedRow.amyloid_beta
  | 4 => PreparedRow.tau_protein

/-- The 5×5 correlation matrix `df[vars_corr].corr()`. -/
noncomputable def corrMatrix (df : List PreparedRow) :
    Fin 5 → Fin 5 → ℝ :=
  fun i j => pearson (col df (vars_corr i)) (col df (vars_corr j))

/-- Slope returned by `scipy.stats.linregress(x, y)`: the ordinary least
squares closed form cov(x,y)/var(x). -/
def linregress_slope (xs ys : List ℚ) : ℚ :=
  scov xs ys / scov xs xs

/-- Intercept returned by `scipy.stats.linregress(x, y)`: the ordinary least
squares closed form mean(y) − slope·mean(x). -/
def linregress_intercept (xs ys : List ℚ) : ℚ :=
  mean ys - linregress_slope xs ys * mean xs

/-- Sum of squared residuals of the affine predictor a·x + b on the paired
columns: the objective that ordinary least squares minimises. -/
def sumSqResiduals (xs ys : List ℚ) (a b : ℚ) : ℚ :=
  ((xs.zip ys).map (fun p => (p.2 - (a * p.1 + b)) ^ 2)).sum

/-- Outcome of the dataset section: either the prepared rows together with
the fitted regression line, or the handled missing-file condition carrying
the user-visible error message. -/
inductive AnalysisOutcome where
  | ok (df : List PreparedRow) (slope : ℚ) (intercept : ℚ)
  | datasetNotFound (message : String)
deriving DecidableEq

/-- The message of `st.error` in the `except FileNotFoundError` handler. -/
def missingFileMessage : String :=
  "Data file \x27brain_diet_data.csv\x27 not found. Please place it next to this script."

/-- The `try`/`except FileNotFoundError` block around the dataset section:
an absent source raises `FileNotFoundError` inside `load_and_prepare` and is
caught; a present source is loaded, prepared, and regressed. -/
def runDatasetSection (source : Option (List RawRow)) : AnalysisOutcome :=
  match source with
  | none => .datasetNotFound missingFileMessage
  | some rows =>
      let df := load_and_prepare rows
      .ok df
        (linregress_slope (col df PreparedRow.diet_score)
          (col df PreparedRow.cognitive_score))
        (linregress_intercept (col df PreparedRow.diet_score)
          (col df PreparedRow.cognitive_score))

/-- The whole script: the quiz section runs first on the selected answers,
then the dataset section runs on the (possibly absent) CSV source. -/
def runApp (answers : List String) (source : Option (List RawRow)) :
    (Int × Nat × Nat × Nat) × AnalysisOutcome :=
  (quizOutput answers, runDatasetSection source)

/-- The concrete raw row of the spec's diet score test case (the remaining
columns are irrelevant to diet_score and set to zero). -/
def sampleRaw : RawRow :=
  { leafy_greens := 2, berries := 1, fish := 0, nuts := 1, olive_oil := 1
    red_meat := 1, sweets := 0, fast_food := 1
    cognitive_score := 0, microbiome_diversity := 0, amyloid_beta := 0
    tau_protein := 0 }

/- ------------------------------------------------------------------ -/
/- Theorems for C2, C3, C7                                            -/
/- ------------------------------------------------------------------ -/

/-- C2: every loaded row's diet_score equals the five positive contributors
minus the three negative contributors, and on the concrete row
(2,1,0,1,1 | 1,0,1) it equals 3. -/
theorem diet_score_formula :
    (∀ (rows : List RawRow) (r : PreparedRow), r ∈ load_and_prepare rows →
        r.diet_score =
          (r.leafy_greens + r.berries + r.fish + r.nuts + r.olive_oil)
            - (r.red_meat + r.sweets + r.fast_food)) ∧
      (load_and_prepare [sampleRaw]).map PreparedRow.diet_score = [3] := by
  constructor
  · intro rows r hr
    obtain ⟨raw, _, rfl⟩ := List.mem_map.1 hr
    simp [prepareRow]
    ring
  · norm_num [load_and_prepare, prepareRow, sampleRaw]

/-- Witness for C2: the prepared sample row is a member of its loaded list
and satisfies the formula. -/
theorem diet_score_formula_witness :
    prepareRow sampleRaw ∈ load_and_prepare [sampleRaw] ∧
      (prepareRow sampleRaw).diet_score =
        ((prepareRow sampleRaw).leafy_greens + (prepareRow sampleRaw).berries
            + (prepareRow sampleRaw).fish + (prepareRow sampleRaw).nuts
            + (prepareRow sampleRaw).olive_oil)
          - ((prepareRow sampleRaw).red_meat + (prepareRow sampleRaw).sweets
            + (prepareRow sampleRaw).fast_food) :=
  ⟨by simp [load_and_prepare],
    diet_score_formula.1 [sampleRaw] (prepareRow sampleRaw)
      (by simp [load_and_prepare])⟩

/-- C3: with an absent source the dataset section yields exactly the handled
DatasetNotFound outcome with its user-visible message (no analysis outputs,
no crash — `runApp` is total), and the quiz outputs are identical to those
produced with any present source. -/
theorem missing_dataset_isolated (answers : List String)
    (rows : List RawRow) :
    (runApp answers none).2
        = AnalysisOutcome.datasetNotFound missingFileMessage ∧
      (runApp answers none).1 = (runApp answers (some rows)).1 := by
  exact ⟨rfl, rfl⟩

/-- C7: the quiz result is a deterministic function of the answers alone —
identical answer sets give identical outputs, whatever the rest of the
program state (here: the dataset source) looks like. -/
theorem quiz_deterministic (answers1 answers2 : List String)
    (source1 source2 : Option (List RawRow))
    (h : answers1 = answers2) :
    (runApp answers1 source1).1 = (runApp answers2 source2).1 := by
  subst h; rfl

/-- Witness for C7: two runs on the best-answer set, one without and one
with a dataset, agree on the quiz output. -/
theorem quiz_deterministic_witness :
    (runApp bestAnswers none).1 = (runApp bestAnswers (some [sampleRaw])).1 :=
  quiz_deterministic bestAnswers bestAnswers none (some [sampleRaw]) rfl

/- ------------------------------------------------------------------ -/
/- Statistics infrastructure                                          -/
/- ------------------------------------------------------------------ -/

/-- Sum of a mapped list as a sum over its index type. -/
theorem map_sum_fin {α : Type} (l : List α) (f : α → ℚ) :
    (l.map f).sum = ∑ i : Fin l.length, f (l.get i) := by
  rw [← List.ofFn_get_eq_map l f, List.sum_ofFn]

/-- Index-level mean. -/
def meanF (n : ℕ) (X : Fin n → ℚ) : ℚ :=
  (∑ i, X i) / n

/-- Index-level deviation product sum. -/
def scovF (n : ℕ) (X Y : Fin n → ℚ) : ℚ :=
  ∑ i, (X i - meanF n X) * (Y i - meanF n Y)

/-- Index-level sum of squared residuals. -/
def RSSF (n : ℕ) (X Y : Fin n → ℚ) (a b : ℚ) : ℚ :=
  ∑ i, (Y i - (a * X i + b)) ^ 2

/-- The mean of a column is the index-level mean. -/
theorem mean_col (df : List PreparedRow) (f : PreparedRow → ℚ) :
    mean (col df f) = meanF df.length (fun i => f (df.get i)) := by
  unfold mean meanF col
  rw [map_sum_fin, List.length_map]

/-- The deviation product sum of two columns of one frame is the index-level
one. -/
theorem scov_col (df : List PreparedRow) (f g : PreparedRow → ℚ) :
    scov (col df f) (col df g)
      = scovF df.length (fun i => f (df.get i)) (fun i => g (df.get i)) := by
  unfold scov scovF
  rw [show col df f = df.map f from rfl, show col df g = df.map g from rfl,
    List.zip_map', List.map_map]
  rw [show (df.map f : List ℚ) = col df f from rfl,
    show (df.map g : List ℚ) = col df g from rfl, mean_col, mean_col]
  rw [map_sum_fin]
  rfl

/-- The residual square sum of two columns of one frame is the index-level
one. -/
theorem sumSqResiduals_col (df : List PreparedRow) (f g : PreparedRow → ℚ)
    (a b : ℚ) :
    sumSqResiduals (col df f) (col df g) a b
      = RSSF df.length (fun i => f (df.get i)) (fun i => g (df.get i)) a b := by
  unfold sumSqResiduals RSSF
  rw [show col df f = df.map f from rfl, show col df g = df.map g from rfl,
    List.zip_map', List.map_map]
  rw [map_sum_fin]
  rfl

/-- Deviation product sums are symmetric. -/
theorem scovF_comm (n : ℕ) (X Y : Fin n → ℚ) :
    scovF n X Y = scovF n Y X := by
  unfold scovF
  exact Finset.sum_congr rfl (fun i _ => by ring)

/-- A deviation square sum is nonnegative. -/
theorem scovF_self_nonneg (n : ℕ) (X : Fin n → ℚ) :
    0 ≤ scovF n X X := by
  unfold scovF
  exact Finset.sum_nonneg (fun i _ => mul_self_nonneg _)

/-- Cauchy–Schwarz for deviation product sums. -/
theorem scovF_sq_le (n : ℕ) (X Y : Fin n → ℚ) :
    (scovF n X Y) ^ 2 ≤ scovF n X X * scovF n Y Y := by
  have h := Finset.sum_mul_sq_le_sq_mul_sq Finset.univ
    (fun i => X i - meanF n X) (fun i => Y i - meanF n Y)
  unfold scovF
  have e1 : ∑ i, (X i - meanF n X) * (X i - meanF n X)
      = ∑ i, (X i - meanF n X) ^ 2 :=
    Finset.sum_congr rfl (fun i _ => (pow_two _).symm)
  have e2 : ∑ i, (Y i - meanF n Y) * (Y i - meanF n Y)
      = ∑ i, (Y i - meanF n Y) ^ 2 :=
    Finset.sum_congr rfl (fun i _ => (pow_two _).symm)
  rw [e1, e2]
  exact h

/-- Deviations sum to zero. -/
theorem sum_dev_zero (n : ℕ) (X : Fin n → ℚ) (hn : n ≠ 0) :
    ∑ i, (X i - meanF n X) = 0 := by
  have hc : (n : ℚ) ≠ 0 := Nat.cast_ne_zero.mpr hn
  rw [Finset.sum_sub_distrib, Finset.sum_const, Finset.card_univ,
    Fintype.card_fin, nsmul_eq_mul]
  unfold meanF
  field_simp

/-- A column that takes two different values has positive deviation square
sum. -/
theorem scovF_self_pos (n : ℕ) (X : Fin n → ℚ) (i j : Fin n)
    (hij : X i ≠ X j) : 0 < scovF n X X := by
  rcases lt_or_eq_of_le (scovF_self_nonneg n X) with h | h
  · exact h
  · exfalso
    have hz : ∀ k ∈ Finset.univ, (X k - meanF n X) * (X k - meanF n X) = 0 := by
      rw [← Finset.sum_eq_zero_iff_of_nonneg
        (fun k _ => mul_self_nonneg (X k - meanF n X))]
      exact h.symm
    have hconst : ∀ k : Fin n, X k = meanF n X := by
      intro k
      have := hz k (Finset.mem_univ k)
      have := mul_self_eq_zero.mp this
      linarith
    exact hij (by rw [hconst i, hconst j])

/- ------------------------------------------------------------------ -/
/- Theorems for C8                                                    -/
/- ------------------------------------------------------------------ -/

/-- A column perfectly correlates with itself. -/
theorem pearson_self_eq_one (xs : List ℚ) (h : 0 < scov xs xs) :
    pearson xs xs = 1 := by
  unfold pearson
  have h0 : (0 : ℝ) ≤ ((scov xs xs : ℚ) : ℝ) := by exact_mod_cast h.le
  rw [Real.mul_self_sqrt h0]
  exact div_self (by exact_mod_cast h.ne')

/-- A Pearson coefficient with positive variances is bounded by one in
absolute value, given Cauchy–Schwarz for the deviation sums. -/
theorem pearson_abs_le_one (xs ys : List ℚ) (hx : 0 < scov xs xs)
    (hy : 0 < scov ys ys)
    (hcs : (scov xs ys) ^ 2 ≤ scov xs xs * scov ys ys) :
    |pearson xs ys| ≤ 1 := by
  unfold pearson
  have hxr : (0 : ℝ) < ((scov xs xs : ℚ) : ℝ) := by exact_mod_cast hx
  have hyr : (0 : ℝ) < ((scov ys ys : ℚ) : ℝ) := by exact_mod_cast hy
  have hd : (0 : ℝ) < Real.sqrt (scov xs xs) * Real.sqrt (scov ys ys) :=
    mul_pos (Real.sqrt_pos.mpr hxr) (Real.sqrt_pos.mpr hyr)
  rw [abs_div, abs_of_pos hd, div_le_one hd]
  rw [← Real.sqrt_sq_eq_abs, ← Real.sqrt_mul hxr.le]
  apply Real.sqrt_le_sqrt
  exact_mod_cast hcs

/-- C8: under nondegeneracy (every one of the five variables has a positive
deviation square sum) the correlation matrix is symmetric, every entry lies
in the interval from -1 to 1, and every diagonal entry equals 1. -/
theorem corr_matrix_props (df : List PreparedRow)
    (h : ∀ i : Fin 5,
      0 < scov (col df (vars_corr i)) (col df (vars_corr i))) :
    (∀ i j, corrMatrix df i j = corrMatrix df j i) ∧
      (∀ i j, -1 ≤ corrMatrix df i j ∧ corrMatrix df i j ≤ 1) ∧
      (∀ i, corrMatrix df i i = 1) := by
  refine ⟨?_, ?_, ?_⟩
  · intro i j
    unfold corrMatrix pearson
    rw [scov_col df (vars_corr i) (vars_corr j),
      scov_col df (vars_corr j) (vars_corr i), scovF_comm, mul_comm]
  · intro i j
    have hcs : (scov (col df (vars_corr i)) (col df (vars_corr j))) ^ 2
        ≤ scov (col df (vars_corr i)) (col df (vars_corr i))
          * scov (col df (vars_corr j)) (col df (vars_corr j)) := by
      rw [scov_col df (vars_corr i) (vars_corr j),
        scov_col df (vars_corr i) (vars_corr i),
        scov_col df (vars_corr j) (vars_corr j)]
      exact scovF_sq_le _ _ _
    have := pearson_abs_le_one _ _ (h i) (h j) hcs
    exact abs_le.mp this
  · intro i
    exact pearson_self_eq_one _ (h i)

/- ------------------------------------------------------------------ -/
/- Theorems for C9                                                    -/
/- ------------------------------------------------------------------ -/

/-- Decomposition of the residual square sum of an affine predictor into a
quadratic in the slope plus an intercept penalty term. -/
theorem RSSF_decomp (n : ℕ) (X Y : Fin n → ℚ) (hn : n ≠ 0) (a b : ℚ) :
    RSSF n X Y a b
      = (scovF n Y Y - 2 * a * scovF n X Y + a ^ 2 * scovF n X X)
        + n * (b - (meanF n Y - a * meanF n X)) ^ 2 := by
  set mX := meanF n X with hmX
  set mY := meanF n Y with hmY
  set c := b - (mY - a * mX) with hc
  have hpt : ∀ i : Fin n, (Y i - (a * X i + b)) ^ 2
      = ((Y i - mY) - a * (X i - mX)) ^ 2
        - (2 * c) * ((Y i - mY) - a * (X i - mX)) + c ^ 2 := by
    intro i
    rw [hc]
    ring
  unfold RSSF
  rw [Finset.sum_congr rfl (fun i _ => hpt i)]
  rw [Finset.sum_add_distrib, Finset.sum_sub_distrib, ← Finset.mul_sum]
  have hdev : ∑ i, ((Y i - mY) - a * (X i - mX)) = 0 := by
    rw [Finset.sum_sub_distrib, ← Finset.mul_sum, sum_dev_zero n X hn,
      sum_dev_zero n Y hn]
    ring
  rw [hdev, mul_zero, sub_zero, Finset.sum_const, Finset.card_univ,
    Fintype.card_fin, nsmul_eq_mul]
  have hquad : ∑ i, ((Y i - mY) - a * (X i - mX)) ^ 2
      = scovF n Y Y - 2 * a * scovF n X Y + a ^ 2 * scovF n X X := by
    have hpt2 : ∀ i : Fin n, ((Y i - mY) - a * (X i - mX)) ^ 2
        = (Y i - mY) * (Y i - mY)
          - (2 * a) * ((X i - mX) * (Y i - mY))
          + a ^ 2 * ((X i - mX) * (X i - mX)) := by
      intro i
      ring
    rw [Finset.sum_congr rfl (fun i _ => hpt2 i)]
    rw [Finset.sum_add_distrib, Finset.sum_sub_distrib, ← Finset.mul_sum,
      ← Finset.mul_sum]
    unfold scovF
    ring
  rw [hquad]

/-- The closed-form slope and intercept minimise the residual square sum. -/
theorem RSSF_min (n : ℕ) (X Y : Fin n → ℚ) (hn : n ≠ 0)
    (hx : 0 < scovF n X X) (a b : ℚ) :
    RSSF n X Y (scovF n X Y / scovF n X X)
        (meanF n Y - scovF n X Y / scovF n X X * meanF n X)
      ≤ RSSF n X Y a b := by
  rw [RSSF_decomp n X Y hn, RSSF_decomp n X Y hn]
  set s := scovF n X Y / scovF n X X with hs
  have hss : s * scovF n X X = scovF n X Y := div_mul_cancel₀ _ hx.ne'
  rw [← hss]
  have h1 : (0 : ℚ) ≤ scovF n X X * (a - s) ^ 2 :=
    mul_nonneg hx.le (sq_nonneg _)
  have h2 : (0 : ℚ) ≤ (n : ℚ) * (b - (meanF n Y - a * meanF n X)) ^ 2 := by
    positivity
  nlinarith [h1, h2]

/-- C9: for a dataset with at least three rows and a nonconstant diet score,
the fitted slope and intercept of the regression step minimise the sum of
squared residuals of cognitive score against diet score over all affine
predictors. -/
theorem regression_minimizes_squared_residuals (df : List PreparedRow)
    (hlen : 3 ≤ df.length)
    (hnc : ∃ r1 ∈ df, ∃ r2 ∈ df, r1.diet_score ≠ r2.diet_score)
    (a b : ℚ) :
    sumSqResiduals (col df PreparedRow.diet_score)
        (col df PreparedRow.cognitive_score)
        (linregress_slope (col df PreparedRow.diet_score)
          (col df PreparedRow.cognitive_score))
        (linregress_intercept (col df PreparedRow.diet_score)
          (col df PreparedRow.cognitive_score))
      ≤ sumSqResiduals (col df PreparedRow.diet_score)
          (col df PreparedRow.cognitive_score) a b := by
  have hn : df.length ≠ 0 := by omega
  obtain ⟨r1, h1, r2, h2, hne⟩ := hnc
  obtain ⟨i, hi⟩ := List.mem_iff_get.mp h1
  obtain ⟨j, hj⟩ := List.mem_iff_get.mp h2
  have hx : 0 < scovF df.length (fun k => PreparedRow.diet_score (df.get k))
      (fun k => PreparedRow.diet_score (df.get k)) := by
    apply scovF_self_pos df.length _ i j
    show (df.get i).diet_score ≠ (df.get j).diet_score
    rw [hi, hj]
    exact hne
  unfold linregress_slope linregress_intercept linregress_slope
  rw [sumSqResiduals_col, sumSqResiduals_col, scov_col, scov_col,
    mean_col, mean_col]
  exact RSSF_min df.length _ _ hn hx a b

/- ------------------------------------------------------------------ -/
/- Concrete dataset witnesses                                         -/
/- ------------------------------------------------------------------ -/

/-- First row of a small concrete dataset fixture. -/
def rowA : RawRow :=
  { leafy_greens := 0, berries := 0, fish := 0, nuts := 0, olive_oil := 0
    red_meat := 0, sweets := 0, fast_food := 0
    cognitive_score := 1, microbiome_diversity := 2, amyloid_beta := 3
    tau_protein := 4 }

/-- Second row of the fixture. -/
def rowB : RawRow :=
  { leafy_greens := 1, berries := 0, fish := 0, nuts := 0, olive_oil := 0
    red_meat := 0, sweets := 0, fast_food := 0
    cognitive_score := 2, microbiome_diversity := 1, amyloid_beta := 5
    tau_protein := 0 }

/-- Third row of the fixture. -/
def rowC : RawRow :=
  { leafy_greens := 3, berries := 0, fish := 0, nuts := 0, olive_oil := 0
    red_meat := 0, sweets := 0, fast_food := 0
    cognitive_score := 5, microbiome_diversity := 7, amyloid_beta := 1
    tau_protein := 2 }

/-- The prepared three-row fixture: every correlated variable varies. -/
def df3 : List PreparedRow :=
  load_and_prepare [rowA, rowB, rowC]

/-- Witness for C8: on the three-row fixture every variable has positive
deviation square sum, and the correlation matrix is symmetric with entries
between -1 and 1 and unit diagonal. -/
theorem corr_matrix_props_witness :
    (∀ i : Fin 5,
        0 < scov (col df3 (vars_corr i)) (col df3 (vars_corr i))) ∧
      ((∀ i j, corrMatrix df3 i j = corrMatrix df3 j i) ∧
        (∀ i j, -1 ≤ corrMatrix df3 i j ∧ corrMatrix df3 i j ≤ 1) ∧
        (∀ i, corrMatrix df3 i i = 1)) :=
  have h : ∀ i : Fin 5,
      0 < scov (col df3 (vars_corr i)) (col df3 (vars_corr i)) := by
    intro i
    fin_cases i <;>
      norm_num [scov, mean, col, df3, load_and_prepare, prepareRow,
        rowA, rowB, rowC, vars_corr]
  ⟨h, corr_matrix_props df3 h⟩

/-- Witness for C9: the three-row fixture has three rows and a nonconstant
diet score, and the fitted line beats the zero predictor. -/
theorem regression_minimizes_squared_residuals_witness :
    3 ≤ df3.length ∧
      (∃ r1 ∈ df3, ∃ r2 ∈ df3, r1.diet_score ≠ r2.diet_score) ∧
      sumSqResiduals (col df3 PreparedRow.diet_score)
          (col df3 PreparedRow.cognitive_score)
          (linregress_slope (col df3 PreparedRow.diet_score)
            (col df3 PreparedRow.cognitive_score))
          (linregress_intercept (col df3 PreparedRow.diet_score)
            (col df3 PreparedRow.cognitive_score))
        ≤ sumSqResiduals (col df3 PreparedRow.diet_score)
            (col df3 PreparedRow.cognitive_score) 0 0 :=
  have hlen : 3 ≤ df3.length := by
    simp [df3, load_and_prepare]
  have hnc : ∃ r1 ∈ df3, ∃ r2 ∈ df3, r1.diet_score ≠ r2.diet_score := by
    refine ⟨prepareRow rowA, by simp [df3, load_and_prepare], prepareRow rowB,
      by simp [df3, load_and_prepare], ?_⟩
    norm_num [prepareRow, rowA, rowB]
  ⟨hlen, hnc, regression_minimizes_squared_residuals df3 hlen hnc 0 0⟩
